import Mathlib

set_option maxRecDepth 100000

/-!
Verification development for the av-gif library (src/lzw.rs, src/encoder.rs,
src/demuxer.rs).  The Rust code is shallowly embedded: machine integers become
`Nat` with explicit `% 2^w` at the points where the Rust type could wrap,
`HashMap<Vec<u8>, u16>` becomes an association list with insert-at-front /
first-match-wins lookup (the same observable semantics, since lookups always
return the most recent binding for a key), and fallible operations (nom
parsers, panicking slice indexing) return `Option`.  Rust `while` loops are
embedded as fuelled recursions whose fuel argument is a proven-sufficient
bound on the iteration count, so that every definition evaluates by `decide`.
-/

/-! ## LZW codec (src/lzw.rs) -/

/-- The LZW dictionary: `HashMap<Vec<u8>, u16>` as an association list.
New bindings are prepended and lookup takes the first match. -/
abbrev Dict := List (List Nat × Nat)

def dictLookup : Dict → List Nat → Option Nat
  | [], _ => none
  | (key, v) :: rest, k => if key = k then some v else dictLookup rest k

/-- `dictionary.contains_key(..)`. -/
def dictContains (d : Dict) (k : List Nat) : Bool :=
  (dictLookup d k).isSome

/-- `dictionary[&k]` — the Rust `Index` impl panics when the key is absent;
in the encoder every such lookup is reachable only with a present key
(`current_sequence` is either empty only under `finalize`'s guard, a seeded
single byte, or a previously matched key), so the `getD 0` default is never
observed on the executed paths. -/
def dictGet (d : Dict) (k : List Nat) : Nat :=
  (dictLookup d k).getD 0

/-- `dictionary.insert(k, v)`. -/
def dictInsert (d : Dict) (k : List Nat) (v : Nat) : Dict :=
  (k, v) :: d

/-- The seeding loop `for i in 0u16..=255 { dictionary.insert(vec![i as u8], i) }`.
Insertion order is irrelevant to lookup because the keys are distinct. -/
def initDict : Dict :=
  (List.range 256).map (fun i => ([i], i))

/-- `struct LzwEncoder`.  The extra `trace` field is a ghost observation
recording, for each `write_code` call, the code written and the value of
`code_size` at that moment; it changes no computed byte. -/
structure LzwEncoder where
  code_size : Nat
  clear_code : Nat
  end_of_stream_code : Nat
  next_code : Nat
  dictionary : Dict
  current_sequence : List Nat
  output : List Nat
  bit_buffer : Nat
  bit_count : Nat
  trace : List (Nat × Nat)

/-- `LzwEncoder::new(code_size)`. -/
def LzwEncoder.new (code_size : Nat) : LzwEncoder :=
  { code_size := code_size
    clear_code := 256
    end_of_stream_code := 257
    next_code := 258
    dictionary := initDict
    current_sequence := []
    output := []
    bit_buffer := 0
    bit_count := 0
    trace := [] }

/-- The `while self.bit_count >= 8 { self.flush_bits(); }` loop of
`write_code`: each iteration pushes `bit_buffer as u8`, shifts the buffer
right by 8 and subtracts 8 from `bit_count`.  Returns (bytes pushed, final
`bit_buffer`, final `bit_count`).  Fuel: the loop runs `bit_count / 8` times,
so `bit_count` itself is a sufficient fuel. -/
def flushBitsLoop : Nat → Nat → Nat → List Nat × Nat × Nat
  | 0, bb, bc => ([], bb, bc)
  | fuel + 1, bb, bc =>
      if 8 ≤ bc then
        let r := flushBitsLoop fuel (bb >>> 8) (bc - 8)
        (bb % 256 :: r.1, r.2)
      else ([], bb, bc)

/-- `LzwEncoder::write_code`.  `bit_buffer |= (code as u32) << bit_count` is a
u32 or, hence the `% 2^32` on the shifted operand (never reached on real
streams: the buffer holds at most 19 bits, cf. spec §9). -/
def LzwEncoder.write_code (e : LzwEncoder) (code : Nat) : LzwEncoder :=
  let bb := Nat.lor e.bit_buffer ((code <<< e.bit_count) % 4294967296)
  let bc := e.bit_count + e.code_size
  let r := flushBitsLoop bc bb bc
  { e with
      trace := e.trace ++ [(code, e.code_size)]
      output := e.output ++ r.1
      bit_buffer := r.2.1
      bit_count := r.2.2 }

/-- `LzwEncoder::reset_dictionary`. -/
def LzwEncoder.reset_dictionary (e : LzwEncoder) : LzwEncoder :=
  { e with
      dictionary := initDict
      next_code := 258
      code_size := 9
      current_sequence := [] }

/-- The per-pixel body of the `for &pixel in chunk` loop in
`LzwEncoder::encode_chunk`. -/
def LzwEncoder.encodePixel (e : LzwEncoder) (pixel : Nat) : LzwEncoder :=
  let extended := e.current_sequence ++ [pixel]
  if dictContains e.dictionary extended then
    { e with current_sequence := extended }
  else
    let e1 := e.write_code (dictGet e.dictionary e.current_sequence)
    if e1.next_code < 4096 then
      let e2 := { e1 with
                    dictionary := dictInsert e1.dictionary extended e1.next_code
                    next_code := e1.next_code + 1 }
      let e3 := if e2.next_code = 2 ^ e2.code_size - 1 ∧ e2.code_size < 12 then
                  { e2 with code_size := e2.code_size + 1 }
                else e2
      let e4 := e3.write_code (dictGet e3.dictionary e3.current_sequence)
      { e4 with current_sequence := [pixel] }
    else
      let e2 := e1.write_code e1.clear_code
      let e3 := e2.reset_dictionary
      { e3 with current_sequence := [pixel] }

/-- `LzwEncoder::encode_chunk`. -/
def LzwEncoder.encode_chunk (e : LzwEncoder) (chunk : List Nat) : LzwEncoder :=
  let e0 := if e.output.isEmpty then e.write_code e.clear_code else e
  chunk.foldl LzwEncoder.encodePixel e0

/-- The `while self.bit_count > 0` flush of `LzwEncoder::finalize`:
pushes `bit_buffer as u8`, shifts by 8, `bit_count.saturating_sub(8)`
(`Nat` subtraction is saturating).  Fuel `bit_count` covers the
`⌈bit_count / 8⌉` iterations. -/
def finalFlushLoop : Nat → Nat → Nat → List Nat × Nat × Nat
  | 0, bb, bc => ([], bb, bc)
  | fuel + 1, bb, bc =>
      if 0 < bc then
        let r := finalFlushLoop fuel (bb >>> 8) (bc - 8)
        (bb % 256 :: r.1, r.2)
      else ([], bb, bc)

/-- `LzwEncoder::finalize`. -/
def LzwEncoder.finalize (e : LzwEncoder) : LzwEncoder :=
  let e1 := if e.current_sequence.isEmpty then e
            else e.write_code (dictGet e.dictionary e.current_sequence)
  let e2 := e1.write_code e1.end_of_stream_code
  let r := finalFlushLoop e2.bit_count e2.bit_buffer e2.bit_count
  { e2 with
      output := e2.output ++ r.1
      bit_buffer := r.2.1
      bit_count := r.2.2 }

/-- `LzwEncoder::reset` (note: `output` and the ghost trace are *not*
cleared — the source resets only the dictionary state and the bit buffer). -/
def LzwEncoder.reset (e : LzwEncoder) : LzwEncoder :=
  let e1 := e.reset_dictionary
  { e1 with bit_buffer := 0, bit_count := 0 }

/-! ## Encoder (src/encoder.rs) -/

/-- `[[u8; 3]]` palette entry. -/
abbrev Rgb := Nat × Nat × Nat

/-- `enum DisposalMethod`. -/
inductive DisposalMethod where
  | None
  | Keep
  | Background
  | Previous
deriving DecidableEq

/-- `enum GifEvent`. -/
inductive GifEvent where
  | startGif (width height : Nat) (global_palette : Option (List Rgb))
      (background_color_index : Nat) (loop_count : Option Nat)
  | startFrame (delay : Nat) (disposal_method : DisposalMethod)
      (local_palette : Option (List Rgb)) (transparent_color_index : Option Nat)
      (is_interlaced : Bool)
  | writeImageChunk (data : List Nat)
  | flushFrame
  | endFrame
  | endGif

/-- `enum EncoderState`. -/
inductive EncoderState where
  | Idle
  | WritingHeader
  | WritingFrame
  | FlushingFrame
  | Finalizing
  | Done
deriving DecidableEq

/-- `struct GifWriter`. -/
structure GifWriter where
  buffer : List Nat

/-- `u16::to_le_bytes` of a value already reduced mod 2^16 by the Rust type. -/
def le16 (n : Nat) : List Nat :=
  [n % 256, n / 256 % 256]

/-- `u8::next_power_of_two` (total on the values that do not make the Rust
call panic, i.e. inputs ≤ 128). -/
def u8NextPow2 (n : Nat) : Nat :=
  if n ≤ 1 then 1 else 2 ^ (Nat.log2 (n - 1) + 1)

/-- `((len as u8).next_power_of_two().trailing_zeros() - 1) as u8` — the
`- 1` is a u32 subtraction (wrapping add of `2^32 - 1`), the cast to u8 is
`% 256`.  `trailing_zeros` of a power of two is its `log2`. -/
def paletteSizeField (len : Nat) : Nat :=
  (Nat.log2 (u8NextPow2 (len % 256)) + 4294967295) % 4294967296 % 256

/-- Flatten a palette: `for color in palette { buffer.extend_from_slice(color) }`. -/
def paletteBytes : List Rgb → List Nat
  | [] => []
  | (r, g, b) :: rest => r :: g :: b :: paletteBytes rest

/-- `GifWriter::write_gif_header`. -/
def GifWriter.write_gif_header (wtr : GifWriter) (width height : Nat)
    (background_index : Nat) (global_palette : Option (List Rgb))
    (loop_count : Option Nat) : GifWriter :=
  let packed_fields :=
    match global_palette with
    | some palette => Nat.lor 128 (Nat.land (paletteSizeField palette.length) 7)
    | none => 0
  let gct :=
    match global_palette with
    | some palette => paletteBytes palette
    | none => []
  let netscape :=
    match loop_count with
    | some lc =>
        [0x21, 0xFF, 0x0B,
         78, 69, 84, 83, 67, 65, 80, 69, 50, 46, 48] ++  -- "NETSCAPE2.0"
        [0x03, 0x01] ++ le16 lc ++ [0x00]
    | none => []
  { buffer := wtr.buffer ++
      [71, 73, 70, 56, 57, 97] ++  -- "GIF89a"
      le16 width ++ le16 height ++
      [packed_fields, background_index, 0] ++
      gct ++ netscape }

/-- The GCE packed-fields byte of `write_graphic_control_exension`. -/
def gcePacked (disposal_method : DisposalMethod)
    (transparent_color_index : Option Nat) : Nat :=
  let base :=
    match disposal_method with
    | .None => 0
    | .Keep => 4
    | .Background => 8
    | .Previous => 12
  if transparent_color_index.isSome then Nat.lor base 1 else base

/-- `GifWriter::write_graphic_control_exension` (the source spells the
method name without the second `t`). -/
def GifWriter.write_graphic_control_exension (wtr : GifWriter)
    (disposal_method : DisposalMethod) (delay : Nat)
    (transparent_color_index : Option Nat) : GifWriter :=
  { buffer := wtr.buffer ++
      [0x21, 0xF9, 0x04, gcePacked disposal_method transparent_color_index] ++
      le16 delay ++
      [transparent_color_index.getD 0, 0x00] }

/-- `match palette { Some(p) => p.len(), None => 256 }` in
`calculate_min_code_size`. -/
def paletteSize : Option (List Rgb) → Nat
  | some palette => palette.length
  | none => 256

/-- The `while (1 << min_code_size) < palette_size { min_code_size += 1 }`
loop.  Fuel: the loop runs until `2^m ≥ size`, i.e. at most
`clog2 size ≤ size` iterations, so `size` is a sufficient fuel. -/
def mcsLoop : Nat → Nat → Nat → Nat
  | 0, _, m => m
  | fuel + 1, size, m => if 2 ^ m < size then mcsLoop fuel size (m + 1) else m

/-- `GifWriter::calculate_min_code_size`. -/
def GifWriter.calculate_min_code_size (palette : Option (List Rgb)) : Nat :=
  let size := paletteSize palette
  mcsLoop size size 1 + 1

/-- `(start..height).step_by(d + 1)` — yields `start, start+d+1, …` while
below `height`.  Fuel: the yielded values are strictly increasing and all
below `height`, so at most `height` iterations occur and fuel `height`
never truncates. -/
def stepByF : Nat → Nat → Nat → Nat → List Nat
  | 0, _, _, _ => []
  | fuel + 1, s, d, h => if s < h then s :: stepByF fuel (s + d + 1) d h else []

def stepBy (start d height : Nat) : List Nat :=
  stepByF height start d height

/-- The `row_indices` built by `GifWriter::encode_interlaced_data`:
passes start at rows 0, 1, 2, 3 with strides 8, 8, 4, 4. -/
def rowIndices (height : Nat) : List Nat :=
  stepBy 0 7 height ++ stepBy 1 7 height ++ stepBy 2 3 height ++ stepBy 3 3 height

/-- The row-extraction loop of `encode_interlaced_data`:
`row_start = (row * width) as usize` is a u16 multiplication (`% 2^16`),
and `&data[row_start..row_end]` panics (`none`) when `row_end` exceeds the
data length. -/
def interlaceRows (data : List Nat) (width : Nat) : List Nat → Option (List Nat)
  | [] => some []
  | row :: rest =>
      let row_start := row * width % 65536
      if row_start + width ≤ data.length then
        (interlaceRows data width rest).map
          (fun t => (data.drop row_start).take width ++ t)
      else none

/-- `GifWriter::encode_interlaced_data` (reads `data` only; never touches
the writer's buffer).  `none` models the slice-indexing panic. -/
def GifWriter.encode_interlaced_data (data : List Nat) (width height : Nat) :
    Option (List Nat) :=
  interlaceRows data width (rowIndices height)

/-- `GifWriter::write_image_descriptor`. -/
def GifWriter.write_image_descriptor (wtr : GifWriter) (left top width height : Nat)
    (local_palette : Option (List Rgb)) (is_interlaced : Bool) : GifWriter :=
  let packed0 :=
    match local_palette with
    | some palette => Nat.lor 128 (Nat.land (paletteSizeField palette.length) 7)
    | none => 0
  let packed_fields := if is_interlaced then Nat.lor packed0 64 else packed0
  let lct :=
    match local_palette with
    | some palette => paletteBytes palette
    | none => []
  { buffer := wtr.buffer ++
      [0x2C] ++ le16 left ++ le16 top ++ le16 width ++ le16 height ++
      [packed_fields] ++ lct ++
      [GifWriter.calculate_min_code_size local_palette] }

/-- `GifWriter::write_frame_trailer`. -/
def GifWriter.write_frame_trailer (wtr : GifWriter) : GifWriter :=
  { buffer := wtr.buffer ++ [0x00] }

/-- `GifWriter::write_gif_trailer`. -/
def GifWriter.write_gif_trailer (wtr : GifWriter) : GifWriter :=
  { buffer := wtr.buffer ++ [0x3B] }

/-- `for chunk in compressed_data.chunks(255) { push(len); extend(chunk) }`.
Fuel: each iteration consumes at least one byte, so the data length is a
sufficient fuel. -/
def blockChunks : Nat → List Nat → List Nat
  | 0, _ => []
  | _, [] => []
  | fuel + 1, x :: xs =>
      let c := x :: xs.take 254
      (c.length :: c) ++ blockChunks fuel (xs.drop 254)

/-- `struct GifEncoderState`. -/
structure GifEncoderState where
  state : EncoderState
  writer : GifWriter
  lzw_encoder : LzwEncoder
  frame_count : Nat
  width : Nat
  height : Nat
  loop_count : Option Nat
  is_interlaced : Bool
  compressed_buffer : List Nat

/-- `GifEncoderState::process_event`.  The result is `none` when the Rust
call panics (out-of-bounds interlace slicing), and otherwise `some` of the
encoder after the call together with the returned `Result`: the default
match arm returns `Err("Invalid event for current state")` and performs no
mutation, so it yields the received state unchanged. -/
def GifEncoderState.process_event (s : GifEncoderState) (event : GifEvent) :
    Option (GifEncoderState × Except String Unit) :=
  match s.state, event with
  | .Idle, .startGif width height global_palette background_color_index loop_count =>
      some ({ s with
                state := .WritingHeader
                writer := s.writer.write_gif_header width height
                  background_color_index global_palette loop_count
                width := width
                height := height
                loop_count := loop_count }, .ok ())
  | .WritingHeader, .startFrame delay disposal_method local_palette
      transparent_color_index is_interlaced =>
      some ({ s with
                state := .WritingFrame
                writer := (s.writer.write_graphic_control_exension disposal_method
                    delay transparent_color_index).write_image_descriptor
                    0 0 s.width s.height local_palette is_interlaced
                is_interlaced := is_interlaced }, .ok ())
  | .WritingFrame, .writeImageChunk data =>
      if s.is_interlaced then
        match GifWriter.encode_interlaced_data data s.width s.height with
        | none => none
        | some interlaced_data =>
            let lz := ((s.lzw_encoder.encode_chunk interlaced_data)).finalize
            some ({ s with
                      lzw_encoder := lz
                      compressed_buffer := s.compressed_buffer ++ lz.output },
                  .ok ())
      else
        let lz := ((s.lzw_encoder.encode_chunk data)).finalize
        some ({ s with
                  lzw_encoder := lz
                  compressed_buffer := s.compressed_buffer ++ lz.output }, .ok ())
  | .WritingFrame, .flushFrame =>
      some ({ s with
                state := .FlushingFrame
                writer := { buffer := s.writer.buffer ++
                  blockChunks s.compressed_buffer.length s.compressed_buffer ++
                  [0x00] } }, .ok ())
  | .FlushingFrame, .endFrame =>
      some ({ s with
                state := .WritingHeader
                writer := s.writer.write_frame_trailer
                frame_count := s.frame_count + 1
                compressed_buffer := []
                lzw_encoder := s.lzw_encoder.reset }, .ok ())
  | .WritingFrame, .endFrame =>
      some ({ s with
                state := .WritingHeader
                writer := s.writer.write_frame_trailer
                frame_count := s.frame_count + 1
                compressed_buffer := []
                lzw_encoder := s.lzw_encoder.reset }, .ok ())
  | .WritingHeader, .endGif =>
      some ({ s with
                state := .Done
                writer := s.writer.write_gif_trailer }, .ok ())
  | _, _ => some (s, .error "Invalid event for current state")

/-- The transitions listed in the source's table (every other combination
falls through to the `Err` arm). -/
def isValidTransition : EncoderState → GifEvent → Bool
  | .Idle, .startGif .. => true
  | .WritingHeader, .startFrame .. => true
  | .WritingFrame, .writeImageChunk .. => true
  | .WritingFrame, .flushFrame => true
  | .WritingFrame, .endFrame => true
  | .FlushingFrame, .endFrame => true
  | .WritingHeader, .endGif => true
  | _, _ => false

/-- Drive a sequence of events, aborting on a panic or an `Err` (as the
repository's own test does with `?`). -/
def runEvents (s : GifEncoderState) : List GifEvent → Option GifEncoderState
  | [] => some s
  | e :: es =>
      match s.process_event e with
      | some (s', Except.ok _) => runEvents s' es
      | _ => none

/-- The encoder as constructed in the repository's test
(`LzwEncoder::new(2)`, everything else empty / zero). -/
def initialEncoder : GifEncoderState :=
  { state := .Idle
    writer := { buffer := [] }
    lzw_encoder := LzwEncoder.new 2
    frame_count := 0
    width := 0
    height := 0
    loop_count := none
    is_interlaced := false
    compressed_buffer := [] }

/-! ## Demuxer (src/demuxer.rs)

The nom parsers are embedded as `List Nat → Option (List Nat × α)`; `none`
covers both `Err` and streaming `Incomplete` results (the caller treats
them identically).  String fields built with `String::from_utf8_lossy` are
kept as the raw assembled bytes: the lossy decoding plays no role in any
claim. -/

/-- `struct GraphicsControlExtension`. -/
structure GraphicsControlExtension where
  disposal_method : Nat
  user_input_flag : Bool
  transparent_color_flag : Bool
  delay_time : Nat
  transparent_color_index : Nat
deriving DecidableEq

/-- `struct CommentExtension` (`text` kept as raw bytes). -/
structure CommentExtension where
  text : List Nat

/-- `struct PlainTextExtension` (`text` kept as raw bytes). -/
structure PlainTextExtension where
  text_grid_left : Nat
  text_grid_top : Nat
  text_grid_width : Nat
  text_grid_height : Nat
  char_cell_width : Nat
  char_cell_height : Nat
  text_foreground_color_index : Nat
  text_background_color_index : Nat
  text : List Nat

/-- `struct ApplicationExtension`. -/
structure ApplicationExtension where
  identifier : List Nat
  auth_code : List Nat
  data : List Nat

/-- `enum Extension`. -/
inductive Extension where
  | GraphicsControl (gce : GraphicsControlExtension)
  | Comment (comment : CommentExtension)
  | PlainText (text : PlainTextExtension)
  | Application (app : ApplicationExtension)

/-- `struct GifFrame`. -/
structure GifFrame where
  left : Nat
  top : Nat
  width : Nat
  height : Nat
  packed_fields : Nat
  local_color_table : List Nat
  min_code_size : Nat
  data : List Nat
  gce : Option GraphicsControlExtension

/-- `struct GifDemuxer` (the fields the parser populates). -/
structure GifDemuxer where
  screen_width : Nat
  screen_height : Nat
  packed_fields : Nat
  background_color_index : Nat
  pixel_aspect_ratio : Nat
  global_color_table : List Nat
  frames : List GifFrame
  current_frame : Nat
  comments : List CommentExtension
  plain_texts : List PlainTextExtension
  applications : List ApplicationExtension

/-- `GifDemuxer::new`. -/
def GifDemuxer.new : GifDemuxer :=
  { screen_width := 0
    screen_height := 0
    packed_fields := 0
    background_color_index := 0
    pixel_aspect_ratio := 0
    global_color_table := []
    frames := []
    current_frame := 0
    comments := []
    plain_texts := []
    applications := [] }

/-- nom `le_u8`. -/
def parseU8 : List Nat → Option (List Nat × Nat)
  | [] => none
  | b :: rest => some (rest, b)

/-- nom `le_u16` (streaming — fails on fewer than 2 bytes). -/
def parseU16 : List Nat → Option (List Nat × Nat)
  | b0 :: b1 :: rest => some (rest, b0 + 256 * b1)
  | _ => none

/-- nom `take(n)`. -/
def parseTake (n : Nat) (input : List Nat) : Option (List Nat × List Nat) :=
  if n ≤ input.length then some (input.drop n, input.take n) else none

/-- nom `tag(bytes)`. -/
def parseTag (t : List Nat) (input : List Nat) : Option (List Nat × Unit) :=
  if input.take t.length = t then some (input.drop t.length, ()) else none

/-- `GifDemuxer::parse_header`: "GIF" then "87a" or "89a". -/
def GifDemuxer.parse_header (input : List Nat) : Option (List Nat × Unit) :=
  match parseTag [71, 73, 70] input with
  | none => none
  | some (rest, _) =>
      match parseTag [56, 55, 97] rest with
      | some r => some r
      | none => parseTag [56, 57, 97] rest

/-- `GifDemuxer::parse_logical_screen_descriptor`. -/
def GifDemuxer.parse_logical_screen_descriptor (input : List Nat) :
    Option (List Nat × (Nat × Nat × Nat × Nat × Nat)) :=
  match parseU16 input with
  | none => none
  | some (i1, width) =>
  match parseU16 i1 with
  | none => none
  | some (i2, height) =>
  match i2 with
  | pf :: bg :: par :: rest => some (rest, (width, height, pf, bg, par))
  | _ => none

/-- `GifDemuxer::parse_global_color_table` (also used for local tables):
if bit 7 of `packed_fields` is set, takes `3 * 2^((packed & 7) + 1)` bytes. -/
def GifDemuxer.parse_global_color_table (input : List Nat) (packed_fields : Nat) :
    Option (List Nat × List Nat) :=
  if Nat.land packed_fields 0x80 ≠ 0 then
    parseTake (3 * 2 ^ (Nat.land packed_fields 0x07 + 1)) input
  else some (input, [])

/-- The sub-block assembly loop shared by the comment, plain-text,
application and image-data parsers: read a length byte, stop at 0,
otherwise take that many bytes and append.  Fuel: every iteration consumes
at least one byte, so the input length is a sufficient fuel. -/
def subBlocksLoop : Nat → List Nat → List Nat → Option (List Nat × List Nat)
  | 0, _, _ => none
  | fuel + 1, acc, input =>
      match parseU8 input with
      | none => none
      | some (rest, 0) => some (rest, acc)
      | some (rest, block_size) =>
          match parseTake block_size rest with
          | none => none
          | some (rest2, block_data) => subBlocksLoop fuel (acc ++ block_data) rest2

def subBlocks (input : List Nat) : Option (List Nat × List Nat) :=
  subBlocksLoop (input.length + 1) [] input

/-- `GifDemuxer::parse_comment_extension`. -/
def GifDemuxer.parse_comment_extension (input : List Nat) :
    Option (List Nat × CommentExtension) :=
  (subBlocks input).map (fun r => (r.1, { text := r.2 }))

/-- `GifDemuxer::parse_plain_text_extension`. -/
def GifDemuxer.parse_plain_text_extension (input : List Nat) :
    Option (List Nat × PlainTextExtension) :=
  match parseU8 input with
  | none => none
  | some (i0, block_size) =>
  if block_size ≠ 12 then none
  else
  match parseU16 i0 with
  | none => none
  | some (i1, text_grid_left) =>
  match parseU16 i1 with
  | none => none
  | some (i2, text_grid_top) =>
  match parseU16 i2 with
  | none => none
  | some (i3, text_grid_width) =>
  match parseU16 i3 with
  | none => none
  | some (i4, text_grid_height) =>
  match i4 with
  | cw :: ch :: fg :: bg :: i5 =>
      (subBlocks i5).map (fun r =>
        (r.1, { text_grid_left := text_grid_left
                text_grid_top := text_grid_top
                text_grid_width := text_grid_width
                text_grid_height := text_grid_height
                char_cell_width := cw
                char_cell_height := ch
                text_foreground_color_index := fg
                text_background_color_index := bg
                text := r.2 }))
  | _ => none

/-- `GifDemuxer::parse_application_extension`. -/
def GifDemuxer.parse_application_extension (input : List Nat) :
    Option (List Nat × ApplicationExtension) :=
  match parseU8 input with
  | none => none
  | some (i0, block_size) =>
  if block_size ≠ 11 then none
  else
  match parseTake 8 i0 with
  | none => none
  | some (i1, application_identifier) =>
  match parseTake 3 i1 with
  | none => none
  | some (i2, auth_code) =>
  (subBlocks i2).map (fun r =>
    (r.1, { identifier := application_identifier
            auth_code := auth_code
            data := r.2 }))

/-- `GifDemuxer::parse_graphics_control_extension`. -/
def GifDemuxer.parse_graphics_control_extension (input : List Nat) :
    Option (List Nat × GraphicsControlExtension) :=
  match parseU8 input with
  | none => none
  | some (i0, block_size) =>
  if block_size ≠ 4 then none
  else
  match parseU8 i0 with
  | none => none
  | some (i1, packed_fields) =>
  match parseU16 i1 with
  | none => none
  | some (i2, delay_time) =>
  match parseU8 i2 with
  | none => none
  | some (i3, transparent_color_index) =>
  match parseTag [0] i3 with
  | none => none
  | some (i4, _) =>
      some (i4,
        { disposal_method := Nat.land (packed_fields >>> 2) 0x07
          user_input_flag := Nat.land packed_fields 0x02 ≠ 0
          transparent_color_flag := Nat.land packed_fields 0x01 ≠ 0
          delay_time := delay_time
          transparent_color_index := transparent_color_index })

/-- `GifDemuxer::parse_image_descriptor` (receives the input still starting
with the 0x2C separator, as `parse_block` passes the original slice). -/
def GifDemuxer.parse_image_descriptor (input : List Nat) :
    Option (List Nat × GifFrame) :=
  match parseTag [0x2C] input with
  | none => none
  | some (i0, _) =>
  match parseU16 i0 with
  | none => none
  | some (i1, left) =>
  match parseU16 i1 with
  | none => none
  | some (i2, top) =>
  match parseU16 i2 with
  | none => none
  | some (i3, width) =>
  match parseU16 i3 with
  | none => none
  | some (i4, height) =>
  match parseU8 i4 with
  | none => none
  | some (i5, packed_fields) =>
  match GifDemuxer.parse_global_color_table i5 packed_fields with
  | none => none
  | some (i6, local_color_table) =>
  match parseU8 i6 with
  | none => none
  | some (i7, min_code_size) =>
  (subBlocks i7).map (fun r =>
    (r.1, { left := left
            top := top
            width := width
            height := height
            packed_fields := packed_fields
            local_color_table := local_color_table
            min_code_size := min_code_size
            data := r.2
            gce := none }))

/-- `GifDemuxer::parse_block`.  `some (rest, none)` is the source's
`Ok((rest, None))`: the trailer byte 0x3B, unknown block types and unknown
extension labels all land there after consuming their introducer bytes. -/
def GifDemuxer.parse_block (input : List Nat) :
    Option (List Nat × Option (Option Extension × Option GifFrame)) :=
  match parseU8 input with
  | none => none
  | some (i0, block_type) =>
  if block_type = 0x21 then
    match parseU8 i0 with
    | none => none
    | some (i1, label) =>
    if label = 0xF9 then
      (GifDemuxer.parse_graphics_control_extension i1).map
        (fun r => (r.1, some (some (Extension.GraphicsControl r.2), none)))
    else if label = 0xFE then
      (GifDemuxer.parse_comment_extension i1).map
        (fun r => (r.1, some (some (Extension.Comment r.2), none)))
    else if label = 0x01 then
      (GifDemuxer.parse_plain_text_extension i1).map
        (fun r => (r.1, some (some (Extension.PlainText r.2), none)))
    else if label = 0xFF then
      (GifDemuxer.parse_application_extension i1).map
        (fun r => (r.1, some (some (Extension.Application r.2), none)))
    else some (i1, none)
  else if block_type = 0x2C then
    (GifDemuxer.parse_image_descriptor input).map
      (fun r => (r.1, some (none, some r.2)))
  else if block_type = 0x3B then
    some (i0, none)
  else some (i0, none)

/-- The `while !input.is_empty()` block loop of `parse_gif`: dispatches on
`parse_block`, stores extensions, attaches the pending GCE to a parsed
frame, and breaks on a parse error.  Fuel: `parse_block` consumes at least
its introducer byte on every `Ok`, so `input.length + 1` covers the loop. -/
def parseBlocksLoop : Nat → GifDemuxer → Option GraphicsControlExtension →
    List Nat → GifDemuxer
  | 0, d, _, _ => d
  | fuel + 1, d, pending_gce, input =>
      if input.isEmpty then d
      else
        match GifDemuxer.parse_block input with
        | some (remaining, some (ext, frame)) =>
            let (d1, pending1) :=
              match ext with
              | some (Extension.GraphicsControl gce) => (d, some gce)
              | some (Extension.Comment c) =>
                  ({ d with comments := d.comments ++ [c] }, pending_gce)
              | some (Extension.PlainText t) =>
                  ({ d with plain_texts := d.plain_texts ++ [t] }, pending_gce)
              | some (Extension.Application a) =>
                  ({ d with applications := d.applications ++ [a] }, pending_gce)
              | none => (d, pending_gce)
            match frame with
            | some fr =>
                let (fr1, pending2) :=
                  if pending1.isSome then ({ fr with gce := pending1 }, none)
                  else (fr, pending1)
                parseBlocksLoop fuel
                  { d1 with frames := d1.frames ++ [fr1] } pending2 remaining
            | none => parseBlocksLoop fuel d1 pending1 remaining
        | some (remaining, none) => parseBlocksLoop fuel d pending_gce remaining
        | none => d

/-- `GifDemuxer::parse_gif` on a fresh demuxer; `none` is the
`Error::InvalidData` result of a header / LSD / global-table failure (the
block loop itself never fails — it breaks and keeps what was parsed). -/
def GifDemuxer.parse_gif (input : List Nat) : Option GifDemuxer :=
  match GifDemuxer.parse_header input with
  | none => none
  | some (i0, _) =>
  match GifDemuxer.parse_logical_screen_descriptor i0 with
  | none => none
  | some (i1, (width, height, packed_fields, background_color_index,
               pixel_aspect_ratio)) =>
  let d := { GifDemuxer.new with
               screen_width := width
               screen_height := height
               packed_fields := packed_fields
               background_color_index := background_color_index
               pixel_aspect_ratio := pixel_aspect_ratio }
  match GifDemuxer.parse_global_color_table i1 packed_fields with
  | none => none
  | some (i2, global_color_table) =>
  some (parseBlocksLoop (i2.length + 1)
    { d with global_color_table := global_color_table } none i2)

/-- A GIF89a stream: 1×1 logical screen, no global table, then the trailer
0x3B, then a complete 1×1 image descriptor with empty image data. -/
def c7Input : List Nat :=
  [71, 73, 70, 56, 57, 97] ++            -- "GIF89a"
  [1, 0, 1, 0, 0, 0, 0] ++               -- logical screen descriptor
  [0x3B] ++                              -- trailer
  [0x2C, 0, 0, 0, 0, 1, 0, 1, 0, 0, 2, 0]  -- image descriptor after trailer

/-! ## Spec-side definitions (for comparison against the code) -/

/-- Modelled from the spec (§4.2, §3): the min-code-size of a frame is the
smallest integer `k` such that `2^k ≥ palette size`, with a floor of 2. -/
def specMinCodeSize (size : Nat) : Nat :=
  max 2 (Nat.clog 2 size)

/-- Modelled from the spec (§4.2): the canonical GIF89a interlace row order
— pass 1: start 0 step 8; pass 2: start 4 step 8; pass 3: start 2 step 4;
pass 4: start 1 step 2. -/
def specInterlaceRows (height : Nat) : List Nat :=
  stepBy 0 7 height ++ stepBy 4 7 height ++ stepBy 2 3 height ++ stepBy 1 1 height

/-- The numeric disposal-method field the spec assigns (§3):
None=0, Keep=1, Background=2, Previous=3. -/
def disposalCode : DisposalMethod → Nat
  | .None => 0
  | .Keep => 1
  | .Background => 2
  | .Previous => 3

/-! ## Concrete runs used by the counterexamples -/

/-- Two frames, one single-byte image chunk each. -/
def evsC5 : List GifEvent :=
  [.startGif 1 1 none 0 none,
   .startFrame 0 .None none none false,
   .writeImageChunk [0],
   .flushFrame, .endFrame,
   .startFrame 0 .None none none false,
   .writeImageChunk [0]]

/-- The codes the LZW layer emits while the second frame of `evsC5` is
processed: the first frame emits exactly the three codes
`[(256,2), (0,2), (257,2)]` (clear, code-for-[0], EOI), so dropping them
from the final trace leaves precisely the second frame's emissions. -/
def frame2Codes : Option (List Nat) :=
  (runEvents initialEncoder evsC5).map
    (fun s => (s.lzw_encoder.trace.drop 3).map Prod.fst)

/-- An encoder mid-frame on an interlaced 1×6 frame. -/
def c10State : GifEncoderState :=
  { initialEncoder with
      state := .WritingFrame
      width := 1
      height := 6
      is_interlaced := true }

/-- The four events of a frame that is flushed before it is ended. -/
def evsC8 : List GifEvent :=
  [.startGif 1 1 none 0 none,
   .startFrame 0 .None none none false,
   .flushFrame, .endFrame]

/-! ## Helper lemmas -/

theorem clog2_le_self (n : Nat) : Nat.clog 2 n ≤ n :=
  (Nat.le_pow_iff_clog_le one_lt_two).mp (le_of_lt (Nat.lt_two_pow n))

theorem mcsLoop_eq :
    ∀ (fuel m size : Nat), Nat.clog 2 size ≤ m + fuel →
      mcsLoop fuel size m = max m (Nat.clog 2 size) := by
  intro fuel
  induction fuel with
  | zero =>
      intro m size h
      have hc : Nat.clog 2 size ≤ m := by omega
      simp [mcsLoop, Nat.max_eq_left hc]
  | succ fuel ih =>
      intro m size h
      by_cases hlt : 2 ^ m < size
      · have hm : m < Nat.clog 2 size := (Nat.pow_lt_iff_lt_clog one_lt_two).mp hlt
        have hrec := ih (m + 1) size (by omega)
        simp only [mcsLoop, hlt, if_true]
        rw [hrec]
        omega
      · have hle : size ≤ 2 ^ m := Nat.le_of_not_lt hlt
        have hc : Nat.clog 2 size ≤ m := (Nat.le_pow_iff_clog_le one_lt_two).mp hle
        simp [mcsLoop, hlt, Nat.max_eq_left hc]

/-! ## Claims -/

/-- C1: the spec's encoding loop emits exactly one code per unmatched
prefix; the source emits the code for `W` a second time after inserting the
new dictionary entry.  On `LzwEncoder::new(2)` with chunk `[0, 0]`, the
single unmatched prefix `[0]` produces the emissions
`[(256,2), (0,2), (0,2)]` — the code 0 is written twice. -/
theorem C1_code_eval :
    ((LzwEncoder.new 2).encode_chunk [0, 0]).trace = [(256, 2), (0, 2), (0, 2)] ∧
    (((LzwEncoder.new 2).encode_chunk [0, 0]).trace.count (0, 2)) = 2 := by
  decide

/-- C2 (counterexample): the claim says the written min-code-size is the
smallest `k` with `2^k ≥ palette size` (floor 2) and lies in `[2, 8]`.
Without a local palette (assumed size 256) the code writes 9, while the
claimed formula gives 8 — and 9 is outside `[2, 8]`. -/
theorem C2_counterexample :
    GifWriter.calculate_min_code_size none = 9 ∧
    specMinCodeSize (paletteSize none) = 8 ∧
    GifWriter.calculate_min_code_size none ≠ specMinCodeSize (paletteSize none) ∧
    ¬ GifWriter.calculate_min_code_size none ≤ 8 := by
  have h1 : Nat.clog 2 256 ≤ 8 :=
    (Nat.le_pow_iff_clog_le one_lt_two).mp (by norm_num)
  have h2 : 7 < Nat.clog 2 256 :=
    (Nat.pow_lt_iff_lt_clog one_lt_two).mp (by norm_num)
  have h3 : GifWriter.calculate_min_code_size none = 9 := by decide
  have h4 : specMinCodeSize (paletteSize none) = 8 := by
    simp [specMinCodeSize, paletteSize]
    omega
  exact ⟨h3, h4, by omega, by omega⟩

/-- C2 (amended): the written min-code-size is *one more than* the smallest
`k ≥ 1` with `2^k ≥ palette size`, i.e. `max 1 ⌈log₂ size⌉ + 1`; it is
always ≥ 2 and, for palettes of at most 256 colors, at most 9. -/
theorem C2_minCodeSize (palette : Option (List Rgb)) :
    GifWriter.calculate_min_code_size palette
      = max 1 (Nat.clog 2 (paletteSize palette)) + 1 ∧
    2 ≤ GifWriter.calculate_min_code_size palette ∧
    (paletteSize palette ≤ 256 → GifWriter.calculate_min_code_size palette ≤ 9) := by
  have heq : GifWriter.calculate_min_code_size palette
      = max 1 (Nat.clog 2 (paletteSize palette)) + 1 := by
    show mcsLoop (paletteSize palette) (paletteSize palette) 1 + 1 = _
    rw [mcsLoop_eq (paletteSize palette) 1 (paletteSize palette)
      (by have := clog2_le_self (paletteSize palette); omega)]
  refine ⟨heq, by rw [heq]; omega, fun hle => ?_⟩
  have hc : Nat.clog 2 (paletteSize palette) ≤ 8 :=
    (Nat.le_pow_iff_clog_le one_lt_two).mp (by norm_num; omega)
  rw [heq]; omega

/-- C2 (witness): the amended statement instantiated at the no-local-palette
case. -/
theorem C2_minCodeSize_witness :
    GifWriter.calculate_min_code_size none
      = max 1 (Nat.clog 2 (paletteSize none)) + 1 ∧
    2 ≤ GifWriter.calculate_min_code_size none ∧
    GifWriter.calculate_min_code_size none ≤ 9 := by
  have h := C2_minCodeSize none
  exact ⟨h.1, h.2.1, h.2.2 (by decide)⟩

/-- C4 (counterexample): at `k = 2` the constructor's initial width is 2
(not `k+1 = 3`), the clear code is 256 (not `2^k = 4`), and the dictionary
holds 256 seeded entries (not `2^k = 4`). -/
theorem C4_counterexample :
    (LzwEncoder.new 2).code_size = 2 ∧ (2 : Nat) ≠ 2 + 1 ∧
    (LzwEncoder.new 2).clear_code = 256 ∧ (256 : Nat) ≠ 2 ^ 2 ∧
    (LzwEncoder.new 2).dictionary.length = 256 ∧
    (LzwEncoder.new 2).dictionary.length ≠ 2 ^ 2 := by
  decide

/-- C4 (amended): for every `k`, `LzwEncoder::new(k)` sets the initial code
width to `k` itself, always seeds 256 single-byte entries `[i] ↦ i`
(`0 ≤ i < 256`), and fixes clear = 256, EOI = 257, next code = 258
regardless of `k`; every dictionary reset restores the same 256 seeded
entries with next code 258 but code width 9. -/
theorem C4_amended (k : Nat) :
    (LzwEncoder.new k).code_size = k ∧
    (LzwEncoder.new k).clear_code = 256 ∧
    (LzwEncoder.new k).end_of_stream_code = 257 ∧
    (LzwEncoder.new k).next_code = 258 ∧
    (LzwEncoder.new k).dictionary.length = 256 ∧
    (∀ i, i < 256 → dictLookup (LzwEncoder.new k).dictionary [i] = some i) ∧
    (∀ e : LzwEncoder,
      e.reset_dictionary.code_size = 9 ∧
      e.reset_dictionary.next_code = 258 ∧
      e.reset_dictionary.current_sequence = [] ∧
      e.reset_dictionary.dictionary.length = 256 ∧
      ∀ i, i < 256 → dictLookup e.reset_dictionary.dictionary [i] = some i) := by
  refine ⟨rfl, rfl, rfl, rfl, ?_, ?_, fun e => ⟨rfl, rfl, rfl, ?_, ?_⟩⟩
  · show initDict.length = 256
    decide
  · show ∀ i, i < 256 → dictLookup initDict [i] = some i
    decide
  · show initDict.length = 256
    decide
  · show ∀ i, i < 256 → dictLookup initDict [i] = some i
    decide

/-- C4 (witness): the amended statement evaluated at `k = 2`, seed entries 7
and 255, and a concrete reset. -/
theorem C4_amended_witness :
    (LzwEncoder.new 2).code_size = 2 ∧
    dictLookup (LzwEncoder.new 2).dictionary [7] = some 7 ∧
    (LzwEncoder.new 2).reset_dictionary.code_size = 9 ∧
    dictLookup (LzwEncoder.new 2).reset_dictionary.dictionary [255] = some 255 := by
  have h := C4_amended 2
  exact ⟨h.1, h.2.2.2.2.2.1 7 (by decide),
         (h.2.2.2.2.2.2 (LzwEncoder.new 2)).1,
         (h.2.2.2.2.2.2 (LzwEncoder.new 2)).2.2.2.2 255 (by decide)⟩

/-- C6: at height 8 the encoder's interlace order is `[0, 1, 2, 6, 3, 7]`
(pass starts 0, 1, 2, 3 with strides 8, 8, 4, 4) — rows 4 and 5 are never
emitted — whereas the claimed GIF89a order is `[0, 4, 2, 6, 1, 3, 5, 7]`. -/
theorem C6_code_eval :
    rowIndices 8 = [0, 1, 2, 6, 3, 7] ∧
    specInterlaceRows 8 = [0, 4, 2, 6, 1, 3, 5, 7] ∧
    rowIndices 8 ≠ specInterlaceRows 8 ∧
    4 ∉ rowIndices 8 := by
  decide

/-- C7 (counterexample): on a well-formed 1×1 GIF whose trailer byte 0x3B is
followed by a complete image descriptor, the parser adds the post-trailer
frame (`frames.len() = 1`), while the claim requires it not to be added. -/
theorem C7_counterexample :
    (GifDemuxer.parse_gif c7Input).map (fun d => d.frames.length) = some 1 ∧
    (1 : Nat) ≠ 0 := by
  decide

/-- C7 (amended): the block loop does not stop at the trailer — `parse_block`
consumes the 0x3B byte and reports “nothing parsed”, exactly as for an
unknown block, so the loop continues to the end of input and frames found
after a trailer are still appended (as the concrete run shows). -/
theorem C7_amended :
    (∀ rest : List Nat, GifDemuxer.parse_block (0x3B :: rest) = some (rest, none)) ∧
    (GifDemuxer.parse_gif c7Input).map (fun d => d.frames.length) = some 1 := by
  exact ⟨fun rest => rfl, by decide⟩

/-- C3: parsing a GCE emitted by the encoder (stripped of the 0x21 0xF9
introducer consumed by `parse_block`) recovers the same disposal method
(None=0, Keep=1, Background=2, Previous=3), the same 16-bit delay, a
transparency flag equal to whether an index was supplied, and the supplied
transparent index (0 when none), for any trailing input. -/
theorem C3_gce_roundtrip (disposal : DisposalMethod) (delay : Nat)
    (tci : Option Nat) (extra : List Nat) (hdelay : delay < 65536) :
    GifDemuxer.parse_graphics_control_extension
        ((GifWriter.write_graphic_control_exension ⟨[]⟩ disposal delay tci).buffer.drop 2
          ++ extra)
      = some (extra,
          { disposal_method := disposalCode disposal
            user_input_flag := false
            transparent_color_flag := tci.isSome
            delay_time := delay
            transparent_color_index := tci.getD 0 }) := by
  have hd : delay % 256 + 256 * (delay / 256 % 256) = delay := by omega
  cases disposal <;> cases tci <;>
    simp_all [GifWriter.write_graphic_control_exension, gcePacked, le16,
      GifDemuxer.parse_graphics_control_extension, parseU8, parseU16, parseTag,
      disposalCode] <;>
    decide

/-- C3 (witness): the round-trip at disposal Previous, delay 300,
transparent index 5, trailing byte 9. -/
theorem C3_gce_roundtrip_witness :
    (300 : Nat) < 65536 ∧
    GifDemuxer.parse_graphics_control_extension
        ((GifWriter.write_graphic_control_exension ⟨[]⟩ .Previous 300 (some 5)).buffer.drop 2
          ++ [9])
      = some ([9],
          { disposal_method := 3
            user_input_flag := false
            transparent_color_flag := true
            delay_time := 300
            transparent_color_index := 5 }) := by
  refine ⟨by decide, ?_⟩
  have h := C3_gce_roundtrip .Previous 300 (some 5) [9] (by decide)
  simpa [disposalCode] using h

/-- C9: for every encoder state and every event not in the transition
table, `process_event` returns the `Err("Invalid event for current state")`
result and the encoder — state, output buffer, compressed buffer and LZW
dictionary — is returned exactly as it was. -/
theorem C9_invalid_transition (s : GifEncoderState) (event : GifEvent)
    (h : isValidTransition s.state event = false) :
    s.process_event event
      = some (s, Except.error "Invalid event for current state") := by
  obtain ⟨st, wtr, lz, fc, w, hgt, lc, ii, cb⟩ := s
  cases st <;> cases event <;>
    simp_all [GifEncoderState.process_event, isValidTransition]

/-- C9 (witness): `EndGif` in the `Idle` state is rejected and the encoder
is unchanged. -/
theorem C9_invalid_transition_witness :
    isValidTransition initialEncoder.state GifEvent.endGif = false ∧
    initialEncoder.process_event GifEvent.endGif
      = some (initialEncoder, Except.error "Invalid event for current state") :=
  ⟨rfl, C9_invalid_transition initialEncoder GifEvent.endGif rfl⟩

/-- C10 (counterexample): an interlaced 1×6 frame with a 4-byte pixel buffer
(shorter than width × height = 6) completes without panicking, because the
encoder's interlace sequence for height 6 touches only rows 0–3. -/
theorem C10_counterexample :
    (c10State.process_event (.writeImageChunk [0, 0, 0, 0])).isSome = true ∧
    ([0, 0, 0, 0] : List Nat).length < c10State.width * c10State.height := by
  decide

theorem stepByF_mem {d h : Nat} :
    ∀ (fuel s r : Nat), r ∈ stepByF fuel s d h → r < h := by
  intro fuel
  induction fuel with
  | zero => intro s r hr; simp [stepByF] at hr
  | succ fuel ih =>
      intro s r hr
      by_cases hs : s < h
      · simp only [stepByF, hs, if_true, List.mem_cons] at hr
        rcases hr with rfl | hr
        · exact hs
        · exact ih _ r hr
      · simp [stepByF, hs] at hr

theorem rowIndices_mem {h r : Nat} (hr : r ∈ rowIndices h) : r < h := by
  simp only [rowIndices, stepBy, List.mem_append] at hr
  rcases hr with ((h1 | h2) | h3) | h4
  · exact stepByF_mem _ _ _ h1
  · exact stepByF_mem _ _ _ h2
  · exact stepByF_mem _ _ _ h3
  · exact stepByF_mem _ _ _ h4

theorem interlaceRows_isSome (data : List Nat) (w : Nat) :
    ∀ rows : List Nat,
      (interlaceRows data w rows).isSome = true ↔
        ∀ r ∈ rows, r * w % 65536 + w ≤ data.length := by
  intro rows
  induction rows with
  | nil => simp [interlaceRows]
  | cons row rest ih =>
      by_cases hc : row * w % 65536 + w ≤ data.length
      · simp [interlaceRows, hc, ih]
      · simp [interlaceRows, hc]

/-- C10 (amended): in state `WritingFrame` with an interlaced frame (and
dimensions small enough that the u16 product `row * width` cannot wrap,
`height * width ≤ 65536`), `WriteImageChunk` completes without panicking
*iff* the buffer covers every row the encoder's own interlace sequence
touches — i.e. `r * width + width ≤ len` for every `r` in `rowIndices
height`.  For heights not a multiple of 8 this bound is strictly smaller
than `width * height`, so buffers shorter than `width × height` can still
succeed. -/
theorem C10_amended (s : GifEncoderState) (data : List Nat)
    (hstate : s.state = .WritingFrame) (hinter : s.is_interlaced = true)
    (hbound : s.height * s.width ≤ 65536) :
    (s.process_event (.writeImageChunk data)).isSome = true ↔
      ∀ r ∈ rowIndices s.height, r * s.width + s.width ≤ data.length := by
  obtain ⟨st, wtr, lz, fc, w, hgt, lc, ii, cb⟩ := s
  simp only at hstate hinter hbound
  subst hstate; subst hinter
  have hmod : ∀ r, r ∈ rowIndices hgt → r * w % 65536 = r * w := by
    intro r hr
    apply Nat.mod_eq_of_lt
    have hrh : r < hgt := rowIndices_mem hr
    rcases Nat.eq_zero_or_pos w with hw | hw
    · subst hw; simp
    · have h1 : (r + 1) * w ≤ hgt * w := Nat.mul_le_mul_right w hrh
      have h2 : r * w + w = (r + 1) * w := by ring
      omega
  have hkey : (GifWriter.encode_interlaced_data data w hgt).isSome = true ↔
      ∀ r ∈ rowIndices hgt, r * w + w ≤ data.length := by
    rw [GifWriter.encode_interlaced_data, interlaceRows_isSome]
    constructor
    · intro H r hr
      have := H r hr
      rwa [hmod r hr] at this
    · intro H r hr
      have := H r hr
      rwa [← hmod r hr] at this
  simp only [GifEncoderState.process_event]
  cases hE : GifWriter.encode_interlaced_data data w hgt with
  | none =>
      simp only [hE, if_true, Option.isSome_none, Bool.false_eq_true, false_iff]
      intro H
      have := hkey.mpr H
      rw [hE] at this
      simp at this
  | some ild =>
      simp only [hE, if_true, Option.isSome_some, true_iff]
      exact hkey.mp (by rw [hE]; rfl)

/-- C10 (witness): the amended equivalence instantiated at the interlaced
1×6 encoder and a 4-byte buffer. -/
theorem C10_amended_witness :
    (c10State.process_event (.writeImageChunk [0, 0, 0, 0])).isSome = true ↔
      ∀ r ∈ rowIndices c10State.height,
        r * c10State.width + c10State.width ≤ ([0, 0, 0, 0] : List Nat).length :=
  C10_amended c10State [0, 0, 0, 0] rfl rfl (by decide)

theorem write_code_trace (e : LzwEncoder) (c : Nat) :
    (e.write_code c).trace = e.trace ++ [(c, e.code_size)] := rfl

theorem encodePixel_trace (e : LzwEncoder) (b : Nat) :
    ∃ t, (e.encodePixel b).trace = e.trace ++ t := by
  unfold LzwEncoder.encodePixel
  by_cases h1 : dictContains e.dictionary (e.current_sequence ++ [b])
  · exact ⟨[], by simp [h1]⟩
  · by_cases h2 : e.next_code < 4096
    · by_cases h3 : e.next_code + 1 = 2 ^ e.code_size - 1 ∧ e.code_size < 12
      · simp [h1, h2, h3, LzwEncoder.write_code, List.append_assoc]
      · simp [h1, h2, h3, LzwEncoder.write_code, List.append_assoc]
    · simp [h1, h2, LzwEncoder.write_code, LzwEncoder.reset_dictionary,
        List.append_assoc]

theorem encodeLoop_trace (chunk : List Nat) :
    ∀ e : LzwEncoder,
      ∃ t, (chunk.foldl LzwEncoder.encodePixel e).trace = e.trace ++ t := by
  induction chunk with
  | nil => exact fun e => ⟨[], by simp⟩
  | cons b bs ih =>
      intro e
      obtain ⟨t1, h1⟩ := encodePixel_trace e b
      obtain ⟨t2, h2⟩ := ih (e.encodePixel b)
      exact ⟨t1 ++ t2, by simp [h2, h1, List.append_assoc]⟩

theorem encodePixel_eoi (e : LzwEncoder) (b : Nat) :
    (e.encodePixel b).end_of_stream_code = e.end_of_stream_code := by
  unfold LzwEncoder.encodePixel
  by_cases h1 : dictContains e.dictionary (e.current_sequence ++ [b])
  · simp [h1]
  · by_cases h2 : e.next_code < 4096
    · by_cases h3 : e.next_code + 1 = 2 ^ e.code_size - 1 ∧ e.code_size < 12
      · simp [h1, h2, h3, LzwEncoder.write_code]
      · simp [h1, h2, h3, LzwEncoder.write_code]
    · simp [h1, h2, LzwEncoder.write_code, LzwEncoder.reset_dictionary]

theorem encodeLoop_eoi (chunk : List Nat) :
    ∀ e : LzwEncoder,
      (chunk.foldl LzwEncoder.encodePixel e).end_of_stream_code
        = e.end_of_stream_code := by
  induction chunk with
  | nil => exact fun e => rfl
  | cons b bs ih =>
      intro e
      rw [List.foldl_cons, ih, encodePixel_eoi]

theorem finalize_trace (e : LzwEncoder) :
    ∃ t2, e.finalize.trace
      = (e.trace ++ t2) ++ [(e.end_of_stream_code, e.code_size)] := by
  unfold LzwEncoder.finalize
  by_cases hcur : e.current_sequence.isEmpty
  · exact ⟨[], by simp [hcur, LzwEncoder.write_code]⟩
  · exact ⟨[(dictGet e.dictionary e.current_sequence, e.code_size)],
      by simp [hcur, LzwEncoder.write_code, List.append_assoc]⟩

/-- C5 (counterexample): the first frame of `evsC5` emits the codes
`[(256,2), (0,2), (257,2)]`; the second frame's compressed stream then
consists of the codes `[0, 257]` — it does *not* begin with the clear code
256, because `LzwEncoder::reset` leaves `output` non-empty and
`encode_chunk` only writes a clear code when `output` is empty. -/
theorem C5_counterexample :
    (runEvents initialEncoder (evsC5.take 5)).map (fun s => s.lzw_encoder.trace)
      = some [(256, 2), (0, 2), (257, 2)] ∧
    frame2Codes = some [0, 257] ∧
    ([0, 257].head? : Option Nat) ≠ some (LzwEncoder.new 2).clear_code := by
  decide

/-- C5 (amended): for a stream started on a *fresh* encoder
(`LzwEncoder::new(k)` has an empty output buffer), one `encode_chunk`
followed by `finalize` emits the clear code 256 first (at the initial
width `k`) and the EOI code 257 last; and on the unmatched-prefix path the
code width increases exactly when the next assignable code reaches
`2^width − 1` (one below the claimed `2^width` threshold) while the width
is still below 12.  Streams of later frames need not begin with a clear
code, since `reset` does not empty the output buffer. -/
theorem C5_amended (k : Nat) (input : List Nat) :
    (((LzwEncoder.new k).encode_chunk input).finalize).trace.head?
      = some (256, k) ∧
    ((((LzwEncoder.new k).encode_chunk input).finalize).trace.map Prod.fst).getLast?
      = some 257 ∧
    (∀ (e : LzwEncoder) (b : Nat),
      dictContains e.dictionary (e.current_sequence ++ [b]) = false →
      e.next_code < 4096 →
      (e.encodePixel b).code_size =
        if e.next_code + 1 = 2 ^ e.code_size - 1 ∧ e.code_size < 12
        then e.code_size + 1 else e.code_size) := by
  have hE : (LzwEncoder.new k).encode_chunk input
      = input.foldl LzwEncoder.encodePixel ((LzwEncoder.new k).write_code 256) := by
    simp [LzwEncoder.encode_chunk, LzwEncoder.new]
  have h0 : ((LzwEncoder.new k).write_code 256).trace = [(256, k)] := rfl
  obtain ⟨t, ht⟩ := encodeLoop_trace input ((LzwEncoder.new k).write_code 256)
  rw [h0] at ht
  have heoi : ((LzwEncoder.new k).encode_chunk input).end_of_stream_code = 257 := by
    rw [hE, encodeLoop_eoi]
    rfl
  obtain ⟨t2, ht2⟩ := finalize_trace ((LzwEncoder.new k).encode_chunk input)
  refine ⟨?_, ?_, ?_⟩
  · -- the first code of the finalize trace is the clear code written by
    -- `encode_chunk` on the fresh (empty-output) encoder
    rw [ht2, hE, ht]
    simp
  · -- the last code of the finalize trace is the EOI code 257
    rw [ht2, heoi]
    simp
  · intro e b h1 h2
    unfold LzwEncoder.encodePixel
    by_cases h3 : e.next_code + 1 = 2 ^ e.code_size - 1 ∧ e.code_size < 12
    · simp [h1, h2, h3, LzwEncoder.write_code]
    · simp [h1, h2, h3, LzwEncoder.write_code]

/-- C5 (witness): the amended statement at `k = 2` with chunk `[0]`, and
the width-step rule applied to the state reached after that chunk with next
pixel 1 (an unmatched extension). -/
theorem C5_amended_witness :
    dictContains ((LzwEncoder.new 2).encode_chunk [0]).dictionary
        (((LzwEncoder.new 2).encode_chunk [0]).current_sequence ++ [1]) = false ∧
    ((LzwEncoder.new 2).encode_chunk [0]).next_code < 4096 ∧
    ((((LzwEncoder.new 2).encode_chunk [0]).finalize).trace.head? = some (256, 2) ∧
     (((LzwEncoder.new 2).encode_chunk [0]).encodePixel 1).code_size =
       (if ((LzwEncoder.new 2).encode_chunk [0]).next_code + 1
             = 2 ^ ((LzwEncoder.new 2).encode_chunk [0]).code_size - 1
           ∧ ((LzwEncoder.new 2).encode_chunk [0]).code_size < 12
        then ((LzwEncoder.new 2).encode_chunk [0]).code_size + 1
        else ((LzwEncoder.new 2).encode_chunk [0]).code_size)) := by
  refine ⟨by decide, by decide, (C5_amended 2 [0]).1, ?_⟩
  exact (C5_amended 2 [0]).2.2 ((LzwEncoder.new 2).encode_chunk [0]) 1
    (by decide) (by decide)

/-- C8: after `FlushFrame` has already terminated the sub-block chain with
0x00, `EndFrame` unconditionally appends another 0x00: the emitted frame
ends with *two* terminators (bytes 32 and 33 below), not one. -/
theorem C8_code_eval :
    (runEvents initialEncoder evsC8).map (fun s => s.writer.buffer) =
    some [71, 73, 70, 56, 57, 97, 1, 0, 1, 0, 0, 0, 0,
          33, 249, 4, 0, 0, 0, 0, 0,
          44, 0, 0, 0, 0, 1, 0, 1, 0, 0, 9,
          0, 0] := by
  decide
